import Mathlib

/-!
Shallow embedding of the `aibash` voice-to-bash-command pipeline
(`main.go`): WAV encoding, the audio capture loop, the cancellation
flag, the two HTTP clients and the `run`/`main` orchestration.

Machine integers are modelled as `Nat`/`Int`; file and network effects
are modelled by explicit environments and traces.
-/

/-- A JSON value, as far as the program's response decoding needs it.
Modelled from the spec: the Go code decodes response bodies with
`encoding/json` (not part of this repository); response JSON shapes are
`\x7b "text": string \x7d` and
`\x7b "choices": [ \x7b "message": \x7b "content": string \x7d \x7d ] \x7d`. -/
inductive Json where
  | null
  | bool (b : Bool)
  | num (n : Int)
  | str (s : String)
  | arr (elems : List Json)
  | obj (fields : List (String × Json))

/-- First field with the given key, if any (models `encoding/json` field
lookup for the exact-tag case, the only case the program's responses use). -/
def lookupField (fields : List (String × Json)) (key : String) : Option Json :=
  (fields.find? (fun p => p.1 == key)).map (fun p => p.2)

/-- Models Go `unicode.IsSpace` on the Latin-1 range, the range relevant
to `strings.TrimSpace` in this program: space, \t, \n, \v, \f, \r,
U+0085 (NEL) and U+00A0 (NBSP). -/
def goIsSpace (c : Char) : Bool :=
  c == ' ' || c == '\t' || c == '\n' || c == '\r' ||
  c == Char.ofNat 11 || c == Char.ofNat 12 ||
  c == Char.ofNat 0x85 || c == Char.ofNat 0xA0

/-- Models Go `strings.TrimSpace`: drop leading and trailing whitespace. -/
def trimSpace (s : String) : String :=
  String.mk (((s.data.dropWhile goIsSpace).reverse.dropWhile goIsSpace).reverse)

/-! ## WAV encoding

`writeWavFile` in `main.go` delegates the byte-level encoding to the
`go-audio/wav` library (not part of this repository).  The byte format is
modelled from the spec: "writes the canonical RIFF/WAVE header followed by
raw little-endian 16-bit sample data". -/

/-- Two little-endian bytes of a 16-bit value. -/
def le16 (x : Nat) : List Nat := [x % 256, x / 256 % 256]

/-- Four little-endian bytes of a 32-bit value. -/
def le32 (x : Nat) : List Nat :=
  [x % 256, x / 256 % 256, x / 65536 % 256, x / 16777216 % 256]

/-- Little-endian bytes of one signed 16-bit sample (two's complement). -/
def int16Bytes (v : Int) : List Nat := le16 ((v % 65536).toNat)

/-- Little-endian byte serialization of a sample sequence. -/
def sampleBytes : List Int → List Nat
  | [] => []
  | v :: rest => int16Bytes v ++ sampleBytes rest

/-- Modelled from the spec: the `go-audio/wav` encoder configured by
`writeWavFile` (PCM format 1, bit depth 16) writes the canonical 44-byte
RIFF/WAVE header followed by raw little-endian 16-bit sample data. -/
def encodeWav (samples : List Int) (numChans sampleRate : Nat) : List Nat :=
  [0x52, 0x49, 0x46, 0x46] ++ le32 (36 + 2 * samples.length) ++
  [0x57, 0x41, 0x56, 0x45] ++
  [0x66, 0x6D, 0x74, 0x20] ++ le32 16 ++
  le16 1 ++ le16 numChans ++ le32 sampleRate ++
  le32 (sampleRate * numChans * 2) ++ le16 (numChans * 2) ++ le16 16 ++
  [0x64, 0x61, 0x74, 0x61] ++ le32 (2 * samples.length) ++
  sampleBytes samples

/-- Value of two little-endian bytes. -/
def readLE16 (b0 b1 : Nat) : Nat := b0 + 256 * b1

/-- Value of four little-endian bytes. -/
def readLE32 (b0 b1 b2 b3 : Nat) : Nat :=
  b0 + 256 * b1 + 65536 * b2 + 16777216 * b3

/-- One signed 16-bit sample from two little-endian bytes. -/
def decodeInt16 (b0 b1 : Nat) : Int :=
  if readLE16 b0 b1 < 32768 then (readLE16 b0 b1 : Int)
  else (readLE16 b0 b1 : Int) - 65536

/-- Parse a 16-bit little-endian sample stream. -/
def decodeSamples : List Nat → Option (List Int)
  | [] => some []
  | b0 :: b1 :: rest => (decodeSamples rest).map (fun s => decodeInt16 b0 b1 :: s)
  | _ => none

/-- Reader for the WAV files produced by the encoder: checks the canonical
PCM header (RIFF/WAVE ids, fmt chunk of size 16, audio format 1, bit depth
16, data chunk whose declared size matches the payload) and returns the
samples, channel count and sample rate. -/
def decodeWav (bytes : List Nat) : Option (List Int × Nat × Nat) :=
  match bytes with
  | r0 :: r1 :: r2 :: r3 :: _c0 :: _c1 :: _c2 :: _c3 ::
    w0 :: w1 :: w2 :: w3 ::
    f0 :: f1 :: f2 :: f3 :: fs0 :: fs1 :: fs2 :: fs3 ::
    af0 :: af1 :: ch0 :: ch1 :: sr0 :: sr1 :: sr2 :: sr3 ::
    _br0 :: _br1 :: _br2 :: _br3 :: _ba0 :: _ba1 :: bd0 :: bd1 ::
    d0 :: d1 :: d2 :: d3 :: ds0 :: ds1 :: ds2 :: ds3 :: rest =>
    if r0 = 0x52 ∧ r1 = 0x49 ∧ r2 = 0x46 ∧ r3 = 0x46 ∧
       w0 = 0x57 ∧ w1 = 0x41 ∧ w2 = 0x56 ∧ w3 = 0x45 ∧
       f0 = 0x66 ∧ f1 = 0x6D ∧ f2 = 0x74 ∧ f3 = 0x20 ∧
       fs0 = 16 ∧ fs1 = 0 ∧ fs2 = 0 ∧ fs3 = 0 ∧
       af0 = 1 ∧ af1 = 0 ∧ bd0 = 16 ∧ bd1 = 0 ∧
       d0 = 0x64 ∧ d1 = 0x61 ∧ d2 = 0x74 ∧ d3 = 0x61 ∧
       rest.length = readLE32 ds0 ds1 ds2 ds3 then
      (decodeSamples rest).map
        (fun s => (s, readLE16 ch0 ch1, readLE32 sr0 sr1 sr2 sr3))
    else none
  | _ => none

/-- `int16ToIntSlice` from `main.go`: widens each 16-bit sample to `int`
(an identity on the mathematical value). -/
def int16ToIntSlice (input : List Int) : List Int := input.map (fun v => v)

/-- `writeWavFile` from `main.go`, as the byte content it writes to the
file: converts the samples with `int16ToIntSlice` and hands them to the
WAV encoder at bit depth 16, PCM format 1. -/
def writeWavFile (samples : List Int) (numChans sampleRate : Nat) : List Nat :=
  encodeWav (int16ToIntSlice samples) numChans sampleRate

/-! ## Audio capture loop

`run` reads 1024-frame chunks into a fixed buffer `in` and appends the
whole buffer to `recordedData` each iteration, until the atomic
`stopRecording` flag is observed non-zero at the top of an iteration or a
read fails with an error other than `io.EOF`. -/

/-- Outcome of one `stream.Read()` call: success (device fills the 1024
chunk buffer), `io.EOF` (benign, buffer untouched), or another error. -/
inductive ReadOutcome where
  | success
  | endOfStream
  | failure (msg : String)

/-- One iteration of the recording loop, as observed by the loop: either
the `stopRecording` flag is seen non-zero at the top, or it is seen zero
and the read happens, carrying the chunk the device would deposit in the
`in` buffer on success. -/
inductive IterEvent where
  | stop
  | read (r : ReadOutcome) (data : List Int)

/-- The recording loop of `run` (`for atomic.LoadInt32(&stopRecording) == 0`),
over a schedule of iteration events.  `inBuf` is the current content of the
`in` chunk buffer, `acc` the `recordedData` accumulated so far.  Returns
`none` when the schedule runs out with the loop still running,
`some (.ok buf)` when the flag stops the loop, and `some (.error e)` when a
non-`io.EOF` read error aborts it. -/
def captureLoop : List IterEvent → List Int → List Int →
    Option (Except String (List Int))
  | [], _, _ => none
  | IterEvent.stop :: _, _, acc => some (Except.ok acc)
  | IterEvent.read r data :: rest, inBuf, acc =>
    match r with
    | ReadOutcome.failure msg =>
      some (Except.error ("error reading from audio stream: " ++ msg))
    | ReadOutcome.success => captureLoop rest data (acc ++ data)
    | ReadOutcome.endOfStream => captureLoop rest inBuf (acc ++ inBuf)

/-! ## Cancellation flag

`stopRecording` is an `int32` written with `atomic.StoreInt32(_, 1)` by the
stdin-watcher goroutine and the signal-handler goroutine, and read with
`atomic.LoadInt32` by the loop.  We model the flag together with the two
one-shot watchers as a transition system. -/

/-- State of the cancellation machinery: the `stopRecording` flag and
whether each watcher goroutine has already fired its one store. -/
structure SysState where
  stopRecording : Bool
  enterFired : Bool
  signalFired : Bool

/-- Initial state: `var stopRecording int32` is zero, neither watcher has
fired. -/
def initState : SysState := ⟨false, false, false⟩

/-- Steps of the system: the stdin watcher fires once
(`atomic.StoreInt32(&stopRecording, 1)`), the signal watcher fires once
(same store), or the capture loop performs a read of the flag (no state
change). -/
inductive SysStep : SysState → SysState → Prop where
  | enter (s : SysState) : s.enterFired = false →
      SysStep s ⟨true, true, s.signalFired⟩
  | signal (s : SysState) : s.signalFired = false →
      SysStep s ⟨true, s.enterFired, true⟩
  | loopLoad (s : SysState) : SysStep s s

/-! ## HTTP clients and orchestration -/

/-- An HTTP response as the two clients consume it: status code, raw body
text (read only on non-200), and the result of JSON-decoding the body
(`Except.error` carries the decoder's message, surfaced as-is). -/
structure HttpResponse where
  status : Nat
  rawBody : String
  parsed : Except String Json

/-- Decoding a JSON value into `openAITranscriptionResponse`
(`Text string` tagged `json:"text"`), with Go `encoding/json` semantics:
a missing field leaves the zero value `""`; `null` leaves the struct
untouched; a non-object, or a `text` field that is not a string, is a
decode error. -/
def decodeTranscriptionJson : Json → Except String String
  | Json.null => Except.ok ""
  | Json.obj fields =>
    match lookupField fields "text" with
    | none => Except.ok ""
    | some (Json.str s) => Except.ok s
    | some Json.null => Except.ok ""
    | some _ => Except.error "json: cannot unmarshal field text"
  | _ => Except.error "json: cannot unmarshal body"

/-- Decoding one element of `choices` into the anonymous choice struct:
yields the `message.content` string, `""` when absent. -/
def decodeChoiceJson : Json → Except String String
  | Json.null => Except.ok ""
  | Json.obj fields =>
    match lookupField fields "message" with
    | none => Except.ok ""
    | some Json.null => Except.ok ""
    | some (Json.obj mfields) =>
      match lookupField mfields "content" with
      | none => Except.ok ""
      | some (Json.str s) => Except.ok s
      | some Json.null => Except.ok ""
      | some _ => Except.error "json: cannot unmarshal field content"
    | some _ => Except.error "json: cannot unmarshal field message"
  | _ => Except.error "json: cannot unmarshal choice"

/-- Decoding a JSON value into `openAIChatResponse` (`Choices` tagged
`json:"choices"`): the list of choice message contents; a missing or null
`choices` field leaves the zero value `[]`. -/
def decodeChatJson : Json → Except String (List String)
  | Json.null => Except.ok []
  | Json.obj fields =>
    match lookupField fields "choices" with
    | none => Except.ok []
    | some Json.null => Except.ok []
    | some (Json.arr elems) => elems.mapM decodeChoiceJson
    | some _ => Except.error "json: cannot unmarshal field choices"
  | _ => Except.error "json: cannot unmarshal body"

/-- `transcribeAudio` from `main.go`, as a function of the transport
outcome and the response: a transport error is returned as-is; a non-200
status yields `non-200 status code: <status> - <body>`; otherwise the JSON
body is decoded and the `text` field returned. -/
def transcribeAudio (transportErr : Option String) (resp : HttpResponse) :
    Except String String :=
  match transportErr with
  | some e => Except.error e
  | none =>
    if resp.status ≠ 200 then
      Except.error ("non-200 status code: " ++ toString resp.status ++
        " - " ++ resp.rawBody)
    else
      match resp.parsed with
      | Except.error e => Except.error e
      | Except.ok j => decodeTranscriptionJson j

/-- The fixed system instruction of the chat request payload. -/
def systemPrompt : String :=
  "You convert natural language instructions into a single valid Bash command. Print the command in plain text without any formatting"

/-- The two-message conversation `generateBashCommand` puts in its request
payload (role, content). -/
def chatMessages (userText : String) : List (String × String) :=
  [("system", systemPrompt), ("user", userText)]

/-- `generateBashCommand` from `main.go`, as a function of the transport
outcome and the response: non-200 yields the status-and-body error, decode
errors are surfaced, an empty `choices` list is the fatal
`no choices returned from chat completion`, and otherwise the first
choice's message content is returned. -/
def generateBashCommand (transportErr : Option String) (resp : HttpResponse) :
    Except String String :=
  match transportErr with
  | some e => Except.error e
  | none =>
    if resp.status ≠ 200 then
      Except.error ("non-200 status code: " ++ toString resp.status ++
        " - " ++ resp.rawBody)
    else
      match resp.parsed with
      | Except.error e => Except.error e
      | Except.ok j =>
        match decodeChatJson j with
        | Except.error e => Except.error e
        | Except.ok [] =>
          Except.error "no choices returned from chat completion"
        | Except.ok (c :: _) => Except.ok c

/-- Environment of one `run` invocation: the API key as visible after
`godotenv.Load`, the outcomes of each fallible external step, the capture
schedule, and the two endpoint responses. -/
structure Env where
  apiKey : String
  initErr : Option String
  openErr : Option String
  startErr : Option String
  events : List IterEvent
  stopErr : Option String
  createErr : Option String
  encodeErr : Option String
  transcribeTransportErr : Option String
  transcribeResp : HttpResponse
  chatTransportErr : Option String
  chatResp : HttpResponse

/-- Observable side effects of one `run` invocation: whether
`portaudio.Initialize` was called, whether `os.Create("temp.wav")`
succeeded (file exists on disk), whether `os.Remove("temp.wav")` ran, and
the user text handed to `generateBashCommand`, if that call was reached. -/
structure Trace where
  audioInitAttempted : Bool
  tempCreated : Bool
  tempRemoved : Bool
  chatUserText : Option String

/-- `run` from `main.go`: the strictly sequential pipeline.  Returns
`none` when the recording loop never observes a stop condition within the
schedule, otherwise the function's `error` result (as `Except`) together
with the side-effect trace.  `defer os.Remove(tempFileName)` is registered
only after `writeWavFile` returns successfully, so an encoder failure
after `os.Create` leaves the file on disk. -/
def run (env : Env) : Option (Except String String × Trace) :=
  if env.apiKey = "" then
    some (Except.error "OpenAI API key not found. Please set OPENAI_API_KEY in your environment or .env file",
      ⟨false, false, false, none⟩)
  else
    match env.initErr with
    | some e => some (Except.error ("failed to initialize portaudio: " ++ e),
        ⟨true, false, false, none⟩)
    | none =>
    match env.openErr with
    | some e => some (Except.error ("failed to open audio stream: " ++ e),
        ⟨true, false, false, none⟩)
    | none =>
    match env.startErr with
    | some e => some (Except.error ("failed to start audio stream: " ++ e),
        ⟨true, false, false, none⟩)
    | none =>
    match captureLoop env.events (List.replicate 1024 0) [] with
    | none => none
    | some (Except.error e) => some (Except.error e, ⟨true, false, false, none⟩)
    | some (Except.ok _recordedData) =>
    match env.stopErr with
    | some e => some (Except.error ("failed to stop audio stream: " ++ e),
        ⟨true, false, false, none⟩)
    | none =>
    match env.createErr with
    | some e => some (Except.error ("failed to write wav file: " ++ e),
        ⟨true, false, false, none⟩)
    | none =>
    match env.encodeErr with
    | some e => some (Except.error ("failed to write wav file: " ++ e),
        ⟨true, true, false, none⟩)
    | none =>
    match transcribeAudio env.transcribeTransportErr env.transcribeResp with
    | Except.error e => some (Except.error ("error transcribing audio: " ++ e),
        ⟨true, true, true, none⟩)
    | Except.ok transcribedText =>
    match generateBashCommand env.chatTransportErr env.chatResp with
    | Except.error e => some (Except.error ("error generating command: " ++ e),
        ⟨true, true, true, some transcribedText⟩)
    | Except.ok generatedCommand =>
      some (Except.ok generatedCommand, ⟨true, true, true, some transcribedText⟩)

/-- `main` from `main.go` (named `mainGo` since Lean reserves `main`): on success prints the trimmed command between
newlines and exits 0; on error prints `An error occurred: <err>` and exits
1.  Result: printed stdout text and exit code. -/
def mainGo (env : Env) : Option (String × Nat) :=
  match run env with
  | none => none
  | some (Except.ok cmd, _) => some ("\n" ++ trimSpace cmd ++ "\n", 0)
  | some (Except.error e, _) => some ("An error occurred: " ++ e ++ "\n", 1)

/-! ## Concrete fixtures used by witness theorems -/

/-- A 200 transcription response whose body is `(text: hello)`. -/
def transcribeRespHello : HttpResponse :=
  ⟨200, "", Except.ok (Json.obj [("text", Json.str "hello")])⟩

/-- A 200 transcription response whose JSON object has no `text` field. -/
def transcribeRespNoText : HttpResponse :=
  ⟨200, "", Except.ok (Json.obj [("status", Json.str "done")])⟩

/-- A 200 chat response with one choice whose content is `" ls -la "`. -/
def chatRespLs : HttpResponse :=
  ⟨200, "",
    Except.ok (Json.obj [("choices", Json.arr
      [Json.obj [("message", Json.obj [("content", Json.str " ls -la ")])]])])⟩

/-- A 200 chat response with an empty choices list. -/
def chatRespEmptyChoices : HttpResponse :=
  ⟨200, "", Except.ok (Json.obj [("choices", Json.arr [])])⟩

/-- A 500 response with body `oops`. -/
def resp500 : HttpResponse := ⟨500, "oops", Except.error "unparsed"⟩

/-- A fully successful environment: key set, all device and file steps
succeed, the user stops recording at the first iteration, both endpoints
answer 200 with well-formed bodies. -/
def envBase : Env :=
  ⟨"k", none, none, none, [IterEvent.stop], none, none, none,
    none, transcribeRespHello, none, chatRespLs⟩

/-- `envBase` with an empty choices list from the chat endpoint. -/
def envEmptyChoices : Env := { envBase with chatResp := chatRespEmptyChoices }

/-- `envBase` with the API key unset. -/
def envNoKey : Env := { envBase with apiKey := "" }

/-- `envBase` where the WAV encoder fails after `os.Create` succeeded. -/
def envEncodeFail : Env := { envBase with encodeErr := some "disk full" }

/-- `envBase` whose transcription response carries no `text` field. -/
def envNoTextField : Env := { envBase with transcribeResp := transcribeRespNoText }

/-- A two-iteration capture schedule: one successful 1024-sample read,
then the flag observed true. -/
def evsOneChunk : List IterEvent :=
  [IterEvent.read ReadOutcome.success (List.replicate 1024 5), IterEvent.stop]

/-! ## Helper lemmas -/

theorem sampleBytes_length (s : List Int) :
    (sampleBytes s).length = 2 * s.length := by
  induction s with
  | nil => rfl
  | cons v rest ih =>
    simp [sampleBytes, int16Bytes, le16, ih]
    omega

theorem decodeInt16_int16Bytes (v : Int) (h1 : -32768 ≤ v) (h2 : v < 32768) :
    decodeInt16 ((v % 65536).toNat % 256) ((v % 65536).toNat / 256 % 256) = v := by
  unfold decodeInt16 readLE16
  split <;> omega

theorem decodeSamples_sampleBytes (s : List Int)
    (h : ∀ v ∈ s, -32768 ≤ v ∧ v < 32768) :
    decodeSamples (sampleBytes s) = some s := by
  induction s with
  | nil => rfl
  | cons v rest ih =>
    have hv := h v (List.mem_cons_self v rest)
    have hrest := ih (fun w hw => h w (List.mem_cons_of_mem v hw))
    show decodeSamples (int16Bytes v ++ sampleBytes rest) = _
    simp only [int16Bytes, le16, List.cons_append, List.append_eq,
      List.nil_append, decodeSamples, hrest, Option.map_some]
    rw [decodeInt16_int16Bytes v hv.1 hv.2]
    rfl

theorem captureLoop_none_of_benign (evs : List IterEvent)
    (h : ∀ e ∈ evs, e ≠ IterEvent.stop ∧
      ∀ m d, e ≠ IterEvent.read (ReadOutcome.failure m) d) :
    ∀ inBuf acc, captureLoop evs inBuf acc = none := by
  induction evs with
  | nil => intro _ _; rfl
  | cons e rest ih =>
    intro inBuf acc
    have he := h e (List.mem_cons_self e rest)
    have hrest := fun e' he' => h e' (List.mem_cons_of_mem e he')
    cases e with
    | stop => exact absurd rfl he.1
    | read r data =>
      cases r with
      | failure m => exact absurd rfl (he.2 m data)
      | success =>
        show captureLoop rest data (acc ++ data) = none
        exact ih hrest data (acc ++ data)
      | endOfStream =>
        show captureLoop rest inBuf (acc ++ inBuf) = none
        exact ih hrest inBuf (acc ++ inBuf)

theorem captureLoop_ok_dvd (evs : List IterEvent) :
    ∀ inBuf acc buf, inBuf.length = 1024 →
    (∀ r d, IterEvent.read r d ∈ evs → d.length = 1024) →
    1024 ∣ acc.length →
    captureLoop evs inBuf acc = some (Except.ok buf) →
    1024 ∣ buf.length := by
  induction evs with
  | nil =>
    intro inBuf acc buf _ _ _ hcap
    simp [captureLoop] at hcap
  | cons e rest ih =>
    intro inBuf acc buf hin hchunk hacc hcap
    cases e with
    | stop =>
      simp [captureLoop] at hcap
      rw [← hcap]
      exact hacc
    | read r data =>
      cases r with
      | failure m => simp [captureLoop] at hcap
      | success =>
        have hd := hchunk ReadOutcome.success data (List.mem_cons_self _ _)
        refine ih data (acc ++ data) buf hd
          (fun r d hm => hchunk r d (List.mem_cons_of_mem _ hm)) ?_ hcap
        rw [List.length_append, hd]
        omega
      | endOfStream =>
        refine ih inBuf (acc ++ inBuf) buf hin
          (fun r d hm => hchunk r d (List.mem_cons_of_mem _ hm)) ?_ hcap
        rw [List.length_append, hin]
        omega

/-! ## Claim theorems -/

/-- C2: for every sample sequence (any non-negative count N of 16-bit
samples), channel count ≥ 1 and sample rate > 0 (within their wire-format
ranges), encoding with `writeWavFile` and decoding the resulting bytes
yields exactly the same samples, channel count and sample rate; and the
encoding of the empty sample sequence is the bare 44-byte canonical header
(structurally valid, zero data length). -/
theorem writeWavFile_roundtrip (samples : List Int) (numChans sampleRate : Nat)
    (hc1 : 1 ≤ numChans) (hc2 : numChans < 65536)
    (hr1 : 0 < sampleRate) (hr2 : sampleRate < 4294967296)
    (hn : 36 + 2 * samples.length < 4294967296)
    (hrange : ∀ v ∈ samples, -32768 ≤ v ∧ v < 32768) :
    decodeWav (writeWavFile samples numChans sampleRate) =
      some (samples, numChans, sampleRate) ∧
    (writeWavFile [] numChans sampleRate).length = 44 := by
  constructor
  · have hid : int16ToIntSlice samples = samples := by
      simp [int16ToIntSlice]
    rw [writeWavFile, hid, encodeWav]
    have h16 : le32 16 = [16, 0, 0, 0] := rfl
    have h1 : le16 1 = [1, 0] := rfl
    have hbd : le16 16 = [16, 0] := rfl
    rw [h16, h1, hbd]
    simp only [le16, le32, List.cons_append, List.nil_append, List.append_eq]
    rw [decodeWav]
    have hcond : (sampleBytes samples).length =
        readLE32 (2 * samples.length % 256) (2 * samples.length / 256 % 256)
          (2 * samples.length / 65536 % 256)
          (2 * samples.length / 16777216 % 256) := by
      rw [sampleBytes_length]; unfold readLE32; omega
    rw [if_pos ⟨rfl, rfl, rfl, rfl, rfl, rfl, rfl, rfl, rfl, rfl, rfl, rfl,
      rfl, rfl, rfl, rfl, rfl, rfl, rfl, rfl, rfl, rfl, rfl, rfl, hcond⟩]
    rw [decodeSamples_sampleBytes samples hrange]
    have hch : readLE16 (numChans % 256) (numChans / 256 % 256) = numChans := by
      unfold readLE16; omega
    have hsr : readLE32 (sampleRate % 256) (sampleRate / 256 % 256)
        (sampleRate / 65536 % 256) (sampleRate / 16777216 % 256) = sampleRate := by
      unfold readLE32; omega
    rw [hch, hsr]
    rfl
  · simp [writeWavFile, int16ToIntSlice, encodeWav, le16, le32, sampleBytes]

/-- Witness for C2 at a concrete input: four samples covering both signed
extremes, mono, 44100 Hz. -/
theorem writeWavFile_roundtrip_witness :
    decodeWav (writeWavFile [1, -2, 32767, -32768] 1 44100) =
      some ([1, -2, 32767, -32768], 1, 44100) ∧
    (writeWavFile [] 1 44100).length = 44 :=
  writeWavFile_roundtrip [1, -2, 32767, -32768] 1 44100 (by decide) (by decide)
    (by decide) (by decide) (by decide) (by decide)

/-- C3: with a 1024-frame chunk buffer and 1024-sample device reads,
the capture loop (1) never terminates on a schedule in which the flag is
never observed true and no read fails — so its only exits are the flag and
a non-end-of-stream read error — and (2) whenever it terminates via the
cancellation flag, the accumulated buffer length is a multiple of 1024. -/
theorem captureLoop_termination_conditions (evs : List IterEvent)
    (inBuf : List Int) (hin : inBuf.length = 1024)
    (hchunk : ∀ r d, IterEvent.read r d ∈ evs → d.length = 1024) :
    ((∀ e ∈ evs, e ≠ IterEvent.stop ∧
        ∀ m d, e ≠ IterEvent.read (ReadOutcome.failure m) d) →
      ∀ acc, captureLoop evs inBuf acc = none) ∧
    (∀ buf, captureLoop evs inBuf [] = some (Except.ok buf) →
      1024 ∣ buf.length) := by
  constructor
  · intro h acc
    exact captureLoop_none_of_benign evs h inBuf acc
  · intro buf hcap
    exact captureLoop_ok_dvd evs inBuf [] buf hin hchunk (by simp) hcap

/-- Witness for C3: on the one-successful-read-then-stop schedule, the
loop stops via the flag with a 1024-sample buffer, a multiple of 1024. -/
theorem captureLoop_termination_witness :
    1024 ∣ (List.replicate 1024 (5 : Int)).length :=
  (captureLoop_termination_conditions evsOneChunk (List.replicate 1024 0)
      (by rw [List.length_replicate])
      (by
        intro r d hm
        simp only [evsOneChunk, List.mem_cons, List.not_mem_nil, or_false] at hm
        rcases hm with h | h
        · cases h
          rw [List.length_replicate]
        · cases h)).2
    (List.replicate 1024 5) rfl

/-- C8: the `stopRecording` flag starts false; each step of the system
(capture-loop load, stdin watcher, signal watcher) either leaves the flag
unchanged or sets it to true — no step resets it — hence once true it
stays true along every sequence of steps. -/
theorem stopRecording_monotone :
    initState.stopRecording = false ∧
    (∀ s t : SysState, SysStep s t →
      t.stopRecording = s.stopRecording ∨ t.stopRecording = true) ∧
    (∀ s t : SysState, SysStep s t →
      s.stopRecording = true → t.stopRecording = true) ∧
    (∀ s t : SysState, Relation.ReflTransGen SysStep s t →
      s.stopRecording = true → t.stopRecording = true) := by
  refine ⟨rfl, ?_, ?_, ?_⟩
  · intro s t hst
    cases hst with
    | enter h => right; rfl
    | signal h => right; rfl
    | loopLoad => left; rfl
  · intro s t hst hs
    cases hst with
    | enter h => rfl
    | signal h => rfl
    | loopLoad => exact hs
  · intro s t h hs
    induction h with
    | refl => exact hs
    | tail hab hbc ih =>
      cases hbc with
      | enter h => rfl
      | signal h => rfl
      | loopLoad => exact ih

/-- Witness for C8: after the stdin watcher fires from a state where the
flag is already true, the flag is still true. -/
theorem stopRecording_monotone_witness :
    (⟨true, true, false⟩ : SysState).stopRecording = true :=
  stopRecording_monotone.2.2.2 ⟨true, false, false⟩ ⟨true, true, false⟩
    (Relation.ReflTransGen.single (SysStep.enter ⟨true, false, false⟩ rfl)) rfl

/-- C9: on an end-of-stream iteration the loop appends the entire
1024-element chunk buffer, unchanged from the previous read, so the
accumulated buffer grows by exactly 1024 — exactly as on a successful
read. -/
theorem eofRead_appends_chunk (rest : List IterEvent) (inBuf acc d : List Int)
    (hin : inBuf.length = 1024) :
    captureLoop (IterEvent.read ReadOutcome.endOfStream d :: rest) inBuf acc =
      captureLoop rest inBuf (acc ++ inBuf) ∧
    (acc ++ inBuf).length = acc.length + 1024 ∧
    (∀ d2, d2.length = 1024 →
      captureLoop (IterEvent.read ReadOutcome.success d2 :: rest) inBuf acc =
        captureLoop rest d2 (acc ++ d2) ∧
      (acc ++ d2).length = acc.length + 1024) := by
  refine ⟨rfl, ?_, ?_⟩
  · rw [List.length_append, hin]
  · intro d2 hd2
    exact ⟨rfl, by rw [List.length_append, hd2]⟩

/-- Witness for C9: starting from an empty accumulator, the end-of-stream
append yields a 1024-sample buffer. -/
theorem eofRead_appends_chunk_witness :
    ([] ++ List.replicate 1024 (0 : Int)).length = ([] : List Int).length + 1024 :=
  (eofRead_appends_chunk [] (List.replicate 1024 0) [] []
    (by rw [List.length_replicate])).2.1

/-- C1: whenever the pipeline reaches the chat call and the chat
endpoint answers 200 with a body whose choices list is non-empty, the
program prints the first choice's content with surrounding whitespace
trimmed (between the two newlines of `fmt.Printf`) and exits 0. -/
theorem chat_success_prints_trimmed (env : Env) (content : String)
    (restChoices : List String)
    (hkey : ¬ env.apiKey = "")
    (hinit : env.initErr = none) (hopen : env.openErr = none)
    (hstart : env.startErr = none)
    (hcap : ∃ buf, captureLoop env.events (List.replicate 1024 0) [] =
      some (Except.ok buf))
    (hstop : env.stopErr = none) (hcreate : env.createErr = none)
    (henc : env.encodeErr = none)
    (htrans : ∃ t, transcribeAudio env.transcribeTransportErr
      env.transcribeResp = Except.ok t)
    (hct : env.chatTransportErr = none)
    (hcs : env.chatResp.status = 200)
    (hparsed : ∃ j, env.chatResp.parsed = Except.ok j ∧
      decodeChatJson j = Except.ok (content :: restChoices)) :
    mainGo env = some ("\n" ++ trimSpace content ++ "\n", 0) := by
  obtain ⟨buf, hbuf⟩ := hcap
  obtain ⟨t, ht⟩ := htrans
  obtain ⟨j, hj, hdec⟩ := hparsed
  have hgen : generateBashCommand env.chatTransportErr env.chatResp =
      Except.ok content := by
    rw [hct]
    simp [generateBashCommand, hcs, hj, hdec]
  have hrun : run env = some (Except.ok content,
      ⟨true, true, true, some t⟩) := by
    simp only [run, hinit, hopen, hstart, hbuf, hstop, hcreate, henc, ht, hgen]
    rw [if_neg hkey]
  rw [mainGo, hrun]

/-- Witness for C1: the fully successful environment whose chat choice
content is `" ls -la "` prints `ls -la` and exits 0. -/
theorem chat_success_prints_trimmed_witness :
    mainGo envBase = some ("\nls -la\n", 0) :=
  (chat_success_prints_trimmed envBase " ls -la " [] (by decide) rfl rfl rfl
    ⟨[], rfl⟩ rfl rfl rfl ⟨"hello", rfl⟩ rfl rfl
    ⟨Json.obj [("choices", Json.arr
      [Json.obj [("message", Json.obj [("content", Json.str " ls -la ")])]])],
      rfl, rfl⟩).trans (by decide)

/-- C4: whenever the pipeline reaches the chat call and the chat
endpoint answers 200 with an empty choices list, the process prints an
error containing `no choices returned` and exits 1. -/
theorem empty_choices_fatal (env : Env)
    (hkey : ¬ env.apiKey = "")
    (hinit : env.initErr = none) (hopen : env.openErr = none)
    (hstart : env.startErr = none)
    (hcap : ∃ buf, captureLoop env.events (List.replicate 1024 0) [] =
      some (Except.ok buf))
    (hstop : env.stopErr = none) (hcreate : env.createErr = none)
    (henc : env.encodeErr = none)
    (htrans : ∃ t, transcribeAudio env.transcribeTransportErr
      env.transcribeResp = Except.ok t)
    (hct : env.chatTransportErr = none)
    (hcs : env.chatResp.status = 200)
    (hparsed : ∃ j, env.chatResp.parsed = Except.ok j ∧
      decodeChatJson j = Except.ok []) :
    ∃ out, mainGo env = some (out, 1) ∧
      ∃ a b, out = a ++ ("no choices returned" ++ b) := by
  obtain ⟨buf, hbuf⟩ := hcap
  obtain ⟨t, ht⟩ := htrans
  obtain ⟨j, hj, hdec⟩ := hparsed
  have hgen : generateBashCommand env.chatTransportErr env.chatResp =
      Except.error "no choices returned from chat completion" := by
    rw [hct]
    simp [generateBashCommand, hcs, hj, hdec]
  have hrun : run env = some (Except.error
      ("error generating command: " ++ "no choices returned from chat completion"),
      ⟨true, true, true, some t⟩) := by
    simp only [run, hinit, hopen, hstart, hbuf, hstop, hcreate, henc, ht, hgen]
    rw [if_neg hkey]
  refine ⟨"An error occurred: " ++
      ("error generating command: " ++ "no choices returned from chat completion") ++
      "\n", ?_, "An error occurred: error generating command: ",
    " from chat completion\n", by decide⟩
  rw [mainGo, hrun]

/-- Witness for C4: the successful environment whose chat endpoint
returns an empty choices list fails with exit code 1 and a
`no choices returned` message. -/
theorem empty_choices_fatal_witness :
    ∃ out, mainGo envEmptyChoices = some (out, 1) ∧
      ∃ a b, out = a ++ ("no choices returned" ++ b) :=
  empty_choices_fatal envEmptyChoices (by decide) rfl rfl rfl ⟨[], rfl⟩ rfl rfl
    rfl ⟨"hello", rfl⟩ rfl rfl ⟨Json.obj [("choices", Json.arr [])], rfl, rfl⟩

/-- C5: for any response with a status other than 200, both clients
return an error whose message contains the numeric status code and the
raw response body text. -/
theorem non200_includes_status_and_body (resp : HttpResponse)
    (h : resp.status ≠ 200) :
    (∃ e, transcribeAudio none resp = Except.error e ∧
      (∃ a b, e = a ++ (toString resp.status ++ b)) ∧
      (∃ a b, e = a ++ (resp.rawBody ++ b))) ∧
    (∃ e, generateBashCommand none resp = Except.error e ∧
      (∃ a b, e = a ++ (toString resp.status ++ b)) ∧
      (∃ a b, e = a ++ (resp.rawBody ++ b))) := by
  have hs : ∀ p s m b : String,
      p ++ s ++ m ++ b = p ++ (s ++ (m ++ b)) := by
    intro p s m b
    rw [String.append_assoc, String.append_assoc]
  have hb : ∀ p s m b : String,
      p ++ s ++ m ++ b = (p ++ s ++ m) ++ (b ++ "") := by
    intro p s m b
    rw [String.append_empty]
  constructor
  · refine ⟨"non-200 status code: " ++ toString resp.status ++ " - " ++
      resp.rawBody, ?_, ?_, ?_⟩
    · simp only [transcribeAudio]
      rw [if_pos h]
    · exact ⟨"non-200 status code: ", " - " ++ resp.rawBody,
        hs "non-200 status code: " (toString resp.status) " - " resp.rawBody⟩
    · exact ⟨"non-200 status code: " ++ toString resp.status ++ " - ", "",
        hb "non-200 status code: " (toString resp.status) " - " resp.rawBody⟩
  · refine ⟨"non-200 status code: " ++ toString resp.status ++ " - " ++
      resp.rawBody, ?_, ?_, ?_⟩
    · simp only [generateBashCommand]
      rw [if_pos h]
    · exact ⟨"non-200 status code: ", " - " ++ resp.rawBody,
        hs "non-200 status code: " (toString resp.status) " - " resp.rawBody⟩
    · exact ⟨"non-200 status code: " ++ toString resp.status ++ " - ", "",
        hb "non-200 status code: " (toString resp.status) " - " resp.rawBody⟩

/-- Witness for C5 at a concrete 500 response with body `oops`. -/
theorem non200_includes_status_and_body_witness :
    ∃ e, transcribeAudio none resp500 = Except.error e ∧
      (∃ a b, e = a ++ (toString resp500.status ++ b)) ∧
      (∃ a b, e = a ++ (resp500.rawBody ++ b)) :=
  (non200_includes_status_and_body resp500 (by decide)).1

/-- C6: with the API key unset (empty after `godotenv.Load`), `run`
fails with the configuration error and a trace in which
`portaudio.Initialize` was never called, and the process exits 1. -/
theorem missing_key_fails_before_audio (env : Env) (h : env.apiKey = "") :
    run env = some (Except.error "OpenAI API key not found. Please set OPENAI_API_KEY in your environment or .env file",
      ⟨false, false, false, none⟩) ∧
    mainGo env = some ("An error occurred: OpenAI API key not found. Please set OPENAI_API_KEY in your environment or .env file\n", 1) ∧
    (Trace.mk false false false none).audioInitAttempted = false := by
  have h1 : run env = some (Except.error "OpenAI API key not found. Please set OPENAI_API_KEY in your environment or .env file",
      ⟨false, false, false, none⟩) := by
    simp [run, h]
  refine ⟨h1, ?_, rfl⟩
  rw [mainGo, h1]
  rfl

/-- Witness for C6 at the concrete keyless environment. -/
theorem missing_key_fails_before_audio_witness :
    mainGo envNoKey = some ("An error occurred: OpenAI API key not found. Please set OPENAI_API_KEY in your environment or .env file\n", 1) :=
  (missing_key_fails_before_audio envNoKey rfl).2.1

/-- C7 counterexample: in a run where `os.Create` succeeds but the
WAV encoder fails, `run` exits on the error path with `temp.wav` created
and never removed — `defer os.Remove` is registered only after
`writeWavFile` returns. -/
theorem temp_file_left_on_encoder_failure :
    run envEncodeFail = some
      (Except.error "failed to write wav file: disk full",
        ⟨true, true, false, none⟩) := by
  rfl

/-- C7 amended: on every exit path on which `writeWavFile` returned
successfully (the temporary file was created and fully written), the file
is removed before the process exits; if the encoder fails after creating
the file, the file is left behind. -/
theorem temp_removed_when_wav_write_succeeds (env : Env)
    (r : Except String String) (t : Trace)
    (h : run env = some (r, t)) (hc : t.tempCreated = true)
    (he : env.encodeErr = none) :
    t.tempRemoved = true := by
  obtain ⟨key, ie, oe, se, evs, ste, ce, ee, tte, tr, cte, cr⟩ := env
  simp only at he
  subst he
  unfold run at h
  repeat' split at h
  all_goals first
    | exact Option.noConfusion h
    | contradiction
    | (injection h with h'
       injection h' with ha hb
       subst hb
       first
         | rfl
         | exact absurd hc (by decide))

/-- Witness for the amended C7: in the fully successful run the trace has
`tempRemoved = true`. -/
theorem temp_removed_when_wav_write_succeeds_witness :
    (Trace.mk true true true (some "hello")).tempRemoved = true :=
  temp_removed_when_wav_write_succeeds envBase (Except.ok " ls -la ")
    (Trace.mk true true true (some "hello")) rfl rfl rfl

/-- C10: a 200 transcription response whose JSON object carries no
`text` field decodes to the empty string with no error, and the pipeline
goes on to call the chat stage with empty user text. -/
theorem missing_text_yields_empty (env : Env) (fields : List (String × Json))
    (hkey : ¬ env.apiKey = "")
    (hinit : env.initErr = none) (hopen : env.openErr = none)
    (hstart : env.startErr = none)
    (hcap : ∃ buf, captureLoop env.events (List.replicate 1024 0) [] =
      some (Except.ok buf))
    (hstop : env.stopErr = none) (hcreate : env.createErr = none)
    (henc : env.encodeErr = none)
    (htt : env.transcribeTransportErr = none)
    (hts : env.transcribeResp.status = 200)
    (hparsed : env.transcribeResp.parsed = Except.ok (Json.obj fields))
    (hno : lookupField fields "text" = none) :
    transcribeAudio env.transcribeTransportErr env.transcribeResp =
      Except.ok "" ∧
    ∃ res t, run env = some (res, t) ∧ t.chatUserText = some "" := by
  obtain ⟨buf, hbuf⟩ := hcap
  have ht : transcribeAudio env.transcribeTransportErr env.transcribeResp =
      Except.ok "" := by
    rw [htt]
    simp [transcribeAudio, hts, hparsed, decodeTranscriptionJson, hno]
  refine ⟨ht, ?_⟩
  cases hgen : generateBashCommand env.chatTransportErr env.chatResp with
  | error e =>
    refine ⟨Except.error ("error generating command: " ++ e),
      ⟨true, true, true, some ""⟩, ?_, rfl⟩
    simp only [run, hinit, hopen, hstart, hbuf, hstop, hcreate, henc, ht, hgen]
    rw [if_neg hkey]
  | ok c =>
    refine ⟨Except.ok c, ⟨true, true, true, some ""⟩, ?_, rfl⟩
    simp only [run, hinit, hopen, hstart, hbuf, hstop, hcreate, henc, ht, hgen]
    rw [if_neg hkey]

/-- Witness for C10: the environment whose transcription body is
`(status: done)` (no `text` field) yields the empty transcription. -/
theorem missing_text_yields_empty_witness :
    transcribeAudio envNoTextField.transcribeTransportErr
      envNoTextField.transcribeResp = Except.ok "" :=
  (missing_text_yields_empty envNoTextField [("status", Json.str "done")]
    (by decide) rfl rfl rfl ⟨[], rfl⟩ rfl rfl rfl rfl rfl rfl rfl).1
